import Mathlib

/-!
Shallow embedding of `src/notebook_doc/doc_functions.py` (theSLWayne/notebook-doc).

The module has three components used in sequence by `render_documentation`:
  * `get_functions`   — the Signature Collector: filters a namespace for local
    callables and records head, docstring, parameter types and return type;
  * `parse_docstrings` — the Docstring Normalizer: turns each raw record plus
    the output of the external `docstring_parser.parse` call into a detail dict;
  * `generate_html`   — the Document Renderer: a fixed Jinja2 template.

Python exceptions are modelled with `Except Unit`: any uncaught Python
exception (AttributeError, TypeError, the docstring parser failing, Jinja2
raising while rendering) is `Except.error ()`.  The external
`docstring_parser.parse` function is not part of this repository, so the
Normalizer is parameterised over it; spec-modelled instances are introduced
where a claim needs a concrete parser behaviour.
-/

/-- Error-propagating map, the embedding of a Python list comprehension whose
body may raise: elements are processed left to right and the first exception
aborts the whole comprehension. -/
def mapE {α β : Type} (f : α → Except Unit β) : List α → Except Unit (List β)
  | [] => .ok []
  | a :: as =>
    match f a with
    | .error err => .error err
    | .ok b =>
      match mapE f as with
      | .error err => .error err
      | .ok bs => .ok (b :: bs)

/-- A Python annotation value as consumed by `get_functions`:
`atom n` is a non-union annotation object whose `__name__` attribute is `n`
when present (`none` models an object without `__name__`, so that reading the
attribute raises AttributeError); `unionOf ms` is a `Union[...]` annotation,
each member represented by its optional `__name__`. -/
inductive PyAnnot : Type where
  | atom : Option String → PyAnnot
  | unionOf : List (Option String) → PyAnnot
deriving DecidableEq

/-- An entry of the namespace dict handed to `get_functions`: the attributes
of the Python object that the collector inspects.  `signature` stands for
`str(inspect.signature(f))`, `params` for the ordered parameter names of the
signature, `type_hints` for the result of `get_type_hints(f)` (possibly
containing the reserved key "return"). -/
structure PyObject : Type where
  callable : Bool
  module : String
  doc : Option String
  signature : String
  params : List String
  type_hints : List (String × PyAnnot)
deriving DecidableEq

/-- The raw record stored per function by `get_functions`
(`[func_head, docstring, func_types, ret_type]`). -/
structure RawRecord : Type where
  head : String
  docstring : String
  param_types : Option (List (String × Option String))
  ret_type : Option String
deriving DecidableEq

/-- Reading `__name__` of every union member:
`[type_hint.__name__ for type_hint in list(get_args(...))]` — a member
without `__name__` raises AttributeError (no try/except in that branch). -/
def seqNames : List (Option String) → Except Unit (List String)
  | [] => .ok []
  | none :: _ => .error ()
  | some n :: rest => (seqNames rest).map (fun ns => n :: ns)

/-- `" or ".join(types)` over the member names of a union annotation. -/
def unionJoin (ms : List (Option String)) : Except Unit String :=
  (seqNames ms).map (fun ns => String.intercalate " or " ns)

/-- Resolution of a parameter annotation, lines 50-60 of the source: a union
is joined with " or " (a nameless member raises), otherwise `__name__` is read
under `try/except AttributeError`, degrading to `None`. -/
def paramResolved : PyAnnot → Except Unit (Option String)
  | .unionOf ms => (unionJoin ms).map some
  | .atom n => .ok n

/-- Resolution of the return annotation, lines 68-78 of the source: the union
branch is as for parameters, but the non-union branch reads `__name__` with no
try/except, so a nameless annotation raises AttributeError. -/
def returnResolved : PyAnnot → Except Unit (Option String)
  | .unionOf ms => (unionJoin ms).map some
  | .atom (some n) => .ok (some n)
  | .atom none => .error ()

/-- Dict lookup `type_hints[k]` / membership `k in type_hints`. -/
def hintLookup (hints : List (String × PyAnnot)) (k : String) : Option PyAnnot :=
  hints.lookup k

/-- The `names_types` dict built for a function, lines 45-66: `None` when the
parameter list is empty, otherwise one entry per parameter name, using
`paramResolved` when the name has a type hint and `None` otherwise. -/
def paramTypesOf (o : PyObject) : Except Unit (Option (List (String × Option String))) :=
  if o.params.length > 0 then
    (mapE (fun p =>
      match hintLookup o.type_hints p with
      | some a => (paramResolved a).map (fun t => (p, t))
      | none => .ok (p, (none : Option String))) o.params).map some
  else
    .ok none

/-- The return-type entry for a function, lines 68-78. -/
def retTypeOf (o : PyObject) : Except Unit (Option String) :=
  match hintLookup o.type_hints "return" with
  | some a => returnResolved a
  | none => .ok none

/-- Embedding of `get_functions`: keep the namespace entries that are callable
and whose `__module__` is "__main__", and build the raw record for each
(`f"\x7bfunc_name\x7d\x7bsignature\x7d"` head, docstring defaulting to "",
parameter-type dict, return type).  Exceptions raised while resolving
annotations propagate. -/
def get_functions (globals_dict : List (String × PyObject)) :
    Except Unit (List (String × RawRecord)) :=
  mapE (fun e =>
    match paramTypesOf e.2 with
    | .error err => .error err
    | .ok types =>
      match retTypeOf e.2 with
      | .error err => .error err
      | .ok ret =>
        .ok (e.1, RawRecord.mk (e.1 ++ e.2.signature) ((e.2.doc).getD "") types ret))
    (globals_dict.filter (fun e => e.2.callable && (e.2.module == "__main__")))

/-! ## The Docstring Normalizer (`parse_docstrings`)

The parsed-docstring object produced by the external `docstring_parser.parse`
is modelled field by field exactly as the source reads it; each textual field
the library may leave unset is an `Option`.  The `params`, `raises` and
`examples` fields are `Option (List _)` because the source guards each with
`is not None` before iterating. -/

/-- One entry of `parsed_docstring.params`. -/
structure DocParam : Type where
  arg_name : String
  type_name : Option String
  is_optional : Option Bool
  default : Option String
  description : Option String
deriving DecidableEq

/-- The `parsed_docstring.returns` object. -/
structure DocReturns : Type where
  return_name : Option String
  type_name : Option String
  description : Option String
deriving DecidableEq

/-- One entry of `parsed_docstring.raises`. -/
structure DocRaises : Type where
  type_name : Option String
  description : Option String
deriving DecidableEq

/-- One entry of `parsed_docstring.examples`. -/
structure DocExample : Type where
  description : Option String
  snippet : Option String
deriving DecidableEq

/-- The object returned by `docstring_parser.parse`, as read by the source. -/
structure ParsedDoc : Type where
  short_description : Option String
  long_description : Option String
  params : Option (List DocParam)
  raises : Option (List DocRaises)
  returns : Option DocReturns
  examples : Option (List DocExample)
deriving DecidableEq

/-- The arg dict built per parsed parameter (lines 128-136). -/
structure ArgDetails : Type where
  arg_name : String
  arg_type : Option String
  is_optional : Option Bool
  default : Option String
  description : Option String
deriving DecidableEq

/-- The raises dict (lines 142-147). -/
structure RaiseDetails : Type where
  type : Option String
  description : String
deriving DecidableEq

/-- The returns dict (lines 152-160). -/
structure ReturnDetails : Type where
  name : Option String
  type : Option String
  description : String
deriving DecidableEq

/-- The example dict (lines 164-169). -/
structure ExampleDetails : Type where
  description : String
  snippet : Option String
deriving DecidableEq

/-- The `func_details` dict built per function (lines 118-174). -/
structure FuncDetails : Type where
  name : String
  head : String
  short_description : Option String
  long_description : Option String
  args : Option (List ArgDetails)
  raises : Option (List RaiseDetails)
  returns : Option ReturnDetails
  examples : Option (List ExampleDetails)
deriving DecidableEq

/-- Character-level form of the chained replacement of `parse_docstrings`:
a newline becomes the line-break tag, a tab four non-breaking spaces,
everything else stays. -/
def escapeChars : List Char → String
  | [] => ""
  | c :: cs =>
    (if c = '\n' then "<br>"
     else if c = '\t' then "&nbsp;&nbsp;&nbsp;&nbsp;"
     else String.singleton c) ++ escapeChars cs

/-- The chained replacement applied throughout `parse_docstrings`:
`s.replace("\n", "<br>").replace("\t", "&nbsp;&nbsp;&nbsp;&nbsp;")`.
Both patterns are single characters and the first replacement introduces no
tab, so the chain is one left-to-right character map. -/
def escapeText (s : String) : String := escapeChars s.data

/-- Python dict membership `k in m` for the `names_types` mapping. -/
def dictMem (m : List (String × Option String)) (k : String) : Bool :=
  m.any (fun p => p.1 == k)

/-- Python dict access `m[k]` for the `names_types` mapping (only used under a
membership guard in the source, so the missing-key case is irrelevant). -/
def dictGet (m : List (String × Option String)) (k : String) : Option String :=
  match m.lookup k with
  | some v => v
  | none => none

/-- The arg-type expression of line 130-132:
`types[arg.arg_name] if arg.arg_name in types else arg.type_name`.
When `types` is Python `None` the membership test itself raises TypeError. -/
def resolveArgType (types : Option (List (String × Option String))) (arg : DocParam) :
    Except Unit (Option String) :=
  match types with
  | none => .error ()
  | some m => if dictMem m arg.arg_name then .ok (dictGet m arg.arg_name)
              else .ok arg.type_name

/-- The "args" field (lines 127-140): `None` when `parsed_docstring.params` is
`None`, otherwise the per-parameter comprehension. -/
def buildArgs (types : Option (List (String × Option String)))
    (params : Option (List DocParam)) : Except Unit (Option (List ArgDetails)) :=
  match params with
  | none => .ok none
  | some ps =>
    (mapE (fun arg => (resolveArgType types arg).map (fun t =>
      ArgDetails.mk arg.arg_name t arg.is_optional arg.default arg.description)) ps).map some

/-- The "raises" field (lines 141-151): each description is escaped with the
chained replace; a `None` description raises AttributeError (no guard). -/
def buildRaises (raises : Option (List DocRaises)) :
    Except Unit (Option (List RaiseDetails)) :=
  match raises with
  | none => .ok none
  | some rs =>
    (mapE (fun r =>
      match r.description with
      | none => .error ()
      | some d => .ok (RaiseDetails.mk r.type_name (escapeText d))) rs).map some

/-- The "returns" field (lines 152-162): `None` when the docstring has no
Returns section; otherwise the type is
`ret_type if ret_type is not None else parsed_docstring.returns.type_name`
and the description is escaped (a `None` description raises AttributeError). -/
def buildReturns (ret_type : Option String) (returns : Option DocReturns) :
    Except Unit (Option ReturnDetails) :=
  match returns with
  | none => .ok none
  | some r =>
    match r.description with
    | none => .error ()
    | some d =>
      .ok (some (ReturnDetails.mk r.return_name
        (match ret_type with
         | some t => some t
         | none => r.type_name)
        (escapeText d)))

/-- The "examples" field (lines 163-173). -/
def buildExamples (examples : Option (List DocExample)) :
    Except Unit (Option (List ExampleDetails)) :=
  match examples with
  | none => .ok none
  | some es =>
    (mapE (fun e =>
      match e.description with
      | none => .error ()
      | some d => .ok (ExampleDetails.mk (escapeText d) e.snippet)) es).map some

/-- The "long_description" field (lines 122-126): Python truthiness guard, so
`None` and the empty string pass through, any other text is escaped. -/
def buildLongDesc (ld : Option String) : Option String :=
  match ld with
  | none => none
  | some s => if s = "" then some "" else some (escapeText s)

/-- One iteration of the `parse_docstrings` loop body after the docstring has
been parsed: the `func_details` dict of lines 118-174, with the fields whose
construction can raise evaluated in the order the dict literal writes them
(args, raises, returns, examples). -/
def funcDetailsOf (func_name : String) (r : RawRecord) (parsed : ParsedDoc) :
    Except Unit FuncDetails :=
  match buildArgs r.param_types parsed.params with
  | .error err => .error err
  | .ok args =>
    match buildRaises parsed.raises with
    | .error err => .error err
    | .ok raises =>
      match buildReturns r.ret_type parsed.returns with
      | .error err => .error err
      | .ok rets =>
        match buildExamples parsed.examples with
        | .error err => .error err
        | .ok exs =>
          .ok (FuncDetails.mk func_name r.head parsed.short_description
                (buildLongDesc parsed.long_description) args raises rets exs)

/-- Embedding of `parse_docstrings`, parameterised over the external
`docstring_parser.parse` function (`parse` below): for each entry of the
collected dict, parse the docstring (a parser exception propagates, line 116)
and build the detail dict. -/
def parse_docstrings (parse : String → Except Unit ParsedDoc)
    (docstrings : List (String × RawRecord)) : Except Unit (List FuncDetails) :=
  mapE (fun e =>
    match parse e.2.docstring with
    | .error err => .error err
    | .ok parsed => funcDetailsOf e.1 e.2 parsed) docstrings

/-! ## The Document Renderer (`generate_html`)

The Jinja2 template of lines 195-321 rendered directly as string assembly.
Jinja2 semantics used: a variable substitution prints `str(value)`, so Python
`None` prints as "None" (`pyStr`); the `length` filter applies `len`, so
`docstring.args|length`, `docstring.raises|length` and
`docstring.examples|length` raise TypeError when the field is Python `None`;
the `is not none` tests on `short_description`, `long_description`,
`returns` and the type fields are real guards.  The inert indentation of the
template literal is normalised to one line per HTML tag; every tag, its
attributes and the order of emission are kept from the source. -/

/-- Concatenation of the strings a Jinja2 for-loop emits. -/
def strConcat : List String → String
  | [] => ""
  | s :: ss => s ++ strConcat ss

/-- Jinja2 variable substitution: `str` of the value, Python `None` printing
as "None". -/
def pyStr (s : Option String) : String :=
  match s with
  | some t => t
  | none => "None"

/-- One side-panel entry (lines 226 and 238): a hyperlink-wrapped list item
when links are enabled, a plain list item otherwise. -/
def sidebarEntry (links : Bool) (name : String) : String :=
  if links then
    "<a href=\"#" ++ name ++
      "\" style=\"text-decoration: none; color: black;\"><li class=\"list-group-item\">" ++
      name ++ "</li></a>\n"
  else
    "<li class=\"list-group-item\">" ++ name ++ "</li>\n"

/-- The side panel (lines 218-244): identical wrapper in both branches of the
links conditional, only the per-function entries differ. -/
def sidebarHtml (links : Bool) (ds : List FuncDetails) : String :=
  "<div class=\"col-3\">\n<div class=\"container sticky-top\">\n<br>\n" ++
  "<h5>Functions List</h5>\n<div class=\"card\">\n" ++
  "<ul class=\"list-group list-group-flush\">\n" ++
  strConcat (ds.map (fun d => sidebarEntry links d.name)) ++
  "</ul>\n</div>\n</div>\n</div>\n"

/-- One rendered argument list item (line 263). -/
def argItem (a : ArgDetails) : String :=
  "<li class=\"list-group-item\"> <i>" ++ a.arg_name ++ "</i>: " ++
  pyStr a.description ++ " " ++
  (match a.arg_type with
   | some t => "(" ++ t ++ ")"
   | none => "") ++ " </li>\n"

/-- The arguments section (lines 260-270): `docstring.args|length` raises on
Python `None`; a positive length renders the items, otherwise the explicit
None placeholder item. -/
def argsSection (args : Option (List ArgDetails)) : Except Unit String :=
  match args with
  | none => .error ()
  | some l =>
    if l.length > 0 then
      .ok ("<ul class=\"list-group list-group-flush\">\n" ++
           strConcat (l.map argItem) ++ "</ul>\n")
    else
      .ok ("<ul class=\"list-group list-group-flush\">\n" ++
           "<li class=\"list-group-item\"><i>None</i></li>\n</ul>\n")

/-- The returns section (lines 272-280): guarded with `is not none`, so an
absent return entry renders the None placeholder instead of raising. -/
def returnsSection (r : Option ReturnDetails) : String :=
  match r with
  | some ret =>
    "<ul class=\"list-group list-group-flush\">\n<li class=\"list-group-item\"> " ++
    (match ret.type with
     | some t => "(" ++ t ++ ")"
     | none => "") ++ " " ++ ret.description ++ " </li>\n</ul>\n"
  | none =>
    "<ul class=\"list-group list-group-flush\">\n<li class=\"list-group-item\"> None </li>\n</ul>\n"

/-- One rendered raises item (line 285). -/
def raiseItem (r : RaiseDetails) : String :=
  "<li class=\"list-group-item\"> <i>" ++ pyStr r.type ++ "</i>: " ++
  r.description ++ " </li>\n"

/-- The raises section (lines 281-288): `docstring.raises|length` raises on
Python `None`; the whole section is omitted when the list is empty. -/
def raisesSection (rs : Option (List RaiseDetails)) : Except Unit String :=
  match rs with
  | none => .error ()
  | some l =>
    if l.length > 0 then
      .ok ("<b>Raises:</b>\n<ul class=\"list-group list-group-flush\">\n" ++
           strConcat (l.map raiseItem) ++ "</ul>\n")
    else
      .ok ""

/-- One rendered example item (lines 293-299). -/
def exampleItem (e : ExampleDetails) : String :=
  "<li class=\"list-group-item\">\n<div class=\"card\">\n<div class=\"card-header\">\n" ++
  e.description ++ "\n</div>\n</div>\n</li>\n"

/-- The examples section (lines 289-302): `docstring.examples|length` raises
on Python `None`; the whole section is omitted when the list is empty. -/
def examplesSection (es : Option (List ExampleDetails)) : Except Unit String :=
  match es with
  | none => .error ()
  | some l =>
    if l.length > 0 then
      .ok ("<b>Examples:</b>\n<ul class=\"list-group list-group-flush\">\n" ++
           strConcat (l.map exampleItem) ++ "</ul>\n")
    else
      .ok ""

/-- The short-description line (lines 253-255). -/
def shortDescHtml (s : Option String) : String :=
  match s with
  | some d => "<p class=\"card-title\"> " ++ d ++ " </p>\n"
  | none => ""

/-- The long-description line (lines 256-258). -/
def longDescHtml (s : Option String) : String :=
  match s with
  | some d => "<p class=\"card-text\"> " ++ d ++ " </p>\n"
  | none => ""

/-- One main-panel function block (lines 248-306), opened by the anchor
`div` whose id is the function name. -/
def bodyBlock (d : FuncDetails) : Except Unit String :=
  match argsSection d.args with
  | .error err => .error err
  | .ok argsHtml =>
    match raisesSection d.raises with
    | .error err => .error err
    | .ok raisesHtml =>
      match examplesSection d.examples with
      | .error err => .error err
      | .ok exHtml =>
        .ok ("<div id=\"" ++ d.name ++ "\">" ++ "\n" ++
             "<p class=\"h3\"> " ++ d.name ++ " </p>\n" ++
             "<div class=\"card\">\n" ++
             "<div class=\"card-header\"><i><b>" ++ d.head ++ "</b></i></div>\n" ++
             "<div class=\"container\">\n" ++
             shortDescHtml d.short_description ++
             longDescHtml d.long_description ++
             "<b>Args:</b>\n" ++ argsHtml ++
             "<b>Returns:</b>\n" ++ returnsSection d.returns ++
             raisesHtml ++ exHtml ++
             "</div>\n</div>\n</div>\n<br>\n")

/-- The static head of the document (lines 197-217), with the title
substituted in the title tag and the navbar heading. -/
def htmlHead (title : String) : String :=
  "<!DOCTYPE html>\n<html>\n<head>\n<meta charset=\"utf-8\">\n" ++
  "<meta name=\"viewport\" content=\"width=device-width, initial-scale=1\">\n" ++
  "<title>" ++ title ++ " - Documentation</title>\n" ++
  "<link href=\"https://cdn.jsdelivr.net/npm/bootstrap@5.3.0-alpha1/dist/css/bootstrap.min.css\" rel=\"stylesheet\" integrity=\"sha384-GLhlTQ8iRABdZLl6O3oVMWSktQOp6b7In1Zl3/Jr59b6EGGoI1aFkw7cmDA6j6gD\" crossorigin=\"anonymous\">\n" ++
  "</head>\n<body class=\"bg-secondary\">\n" ++
  "<script src=\"https://cdn.jsdelivr.net/npm/bootstrap@5.3.0-alpha1/dist/js/bootstrap.bundle.min.js\" integrity=\"sha384-w76AqPfDkMBDXo30jS1Sgez6pr3x5MlQ1ZAGC+nuZB+EYdgRZgiwxhTBTkF7CXvN\" crossorigin=\"anonymous\"></script>\n" ++
  "<nav class=\"navbar navbar-expand-lg navbar-dark bg-dark\">\n" ++
  "<div class=\"container\" id=\"top\">\n<span class=\"navbar-text\">\n" ++
  "<h3 class=\"display-5\"> " ++ title ++ " - Documentation </h3>\n" ++
  "</span>\n</div>\n</nav>\n<div class=\"container bg-light\">\n<div class=\"row\">\n"

/-- The heading that opens the main panel (lines 245-246); the mismatched
closing h4 tag is in the source. -/
def bodyIntro : String :=
  "<div class=\"col\">\n<h5 class=\"display-6\">Functions</h4>\n"

/-- The static tail of the document (lines 306-319). -/
def htmlFoot : String :=
  "<br>\n</div>\n</div>\n</div>\n<br>\n<br>\n" ++
  "<nav class=\"navbar navbar-light bg-dark\">\n</nav>\n</body>\n</html>\n"

/-- Embedding of `generate_html`: render the template with the record list,
title and link flag.  A TypeError raised by a length filter inside the
function loop makes the whole render raise. -/
def generate_html (docstrings : List FuncDetails) (title : String)
    (enable_links : Bool) : Except Unit String :=
  match mapE bodyBlock docstrings with
  | .error err => .error err
  | .ok blocks =>
    .ok (htmlHead title ++ sidebarHtml enable_links docstrings ++ bodyIntro ++
         strConcat blocks ++ htmlFoot)

/-- Embedding of `render_documentation`, the entry point: collect, normalize,
render, with the title defaulting to "Notebook". -/
def render_documentation (parse : String → Except Unit ParsedDoc)
    (globals_dict : List (String × PyObject)) (module_name : Option String)
    (enable_links : Bool) : Except Unit String :=
  match get_functions globals_dict with
  | .error err => .error err
  | .ok docstrings =>
    match parse_docstrings parse docstrings with
    | .error err => .error err
    | .ok parsed => generate_html parsed (module_name.getD "Notebook") enable_links

/-- Substring containment, used to state facts about the rendered document. -/
def strContains (s pat : String) : Prop := ∃ l r, s = l ++ (pat ++ r)

/-- Concrete namespace object for the C5 witness: a local callable whose
return annotation is the union of two named types. -/
def c5obj : PyObject :=
  PyObject.mk true "__main__" none "()" []
    [("return", PyAnnot.unionOf [some "int", some "str"])]

/-- Concrete namespace for the C6 witness: one imported callable and one
non-callable value, no local callables. -/
def c6gd : List (String × PyObject) :=
  [("np_mean", PyObject.mk true "numpy" none "(a)" ["a"] []),
   ("x", PyObject.mk false "__main__" none "" [] [])]

/-- Raw record and parser output for the C2 witness: declared return type
"int" while the docstring text names "str"; the declared annotation wins. -/
def c2raw : RawRecord := RawRecord.mk "f()" "doc" none (some "int")

/-- Parser output used by the C2 witness, with a Returns section naming the
type "str" in the docstring text. -/
def c2parsed : ParsedDoc :=
  ParsedDoc.mk (some "s") none none (some []) (some (DocReturns.mk none (some "str") (some "d"))) (some [])

/-- Raw record for the C7 witness: the signature declares parameter "x" with an
unresolvable annotation, so the mapping holds the absent-but-known value. -/
def c7raw : RawRecord := RawRecord.mk "f(x)" "doc" (some [("x", none)]) none

/-- Parsed parameter entries for the C7 witness: the docstring text declares a
type for "x" and also documents an extra parameter "y" not in the mapping. -/
def c7psList : List DocParam :=
  [DocParam.mk "x" (some "int") (some false) none (some "first"),
   DocParam.mk "y" (some "str") (some false) none (some "second")]

/-- Parser output for the C7 witness. -/
def c7parsed : ParsedDoc :=
  ParsedDoc.mk (some "s") none (some c7psList) (some []) none (some [])

/-- Normalized record expected in the C7 witness. -/
def c7expected : FuncDetails :=
  FuncDetails.mk "f" "f(x)" (some "s") none
    (some [ArgDetails.mk "x" none (some false) none (some "first"),
           ArgDetails.mk "y" (some "str") (some false) none (some "second")])
    (some []) none (some [])

/-- Parser output for the C8 witness: a summary with no substitution applied
and a long description holding a newline and a tab. -/
def c8parsed : ParsedDoc :=
  ParsedDoc.mk (some "sum\nmary") (some "line1\nline2\tend") none
    (some []) none (some [])

/-- Parser output for the C10 witness: one documented parameter. -/
def c10parsed : ParsedDoc :=
  ParsedDoc.mk (some "s") none
    (some [DocParam.mk "a" (some "int") (some false) none (some "first")])
    (some []) none (some [])

/-- Modelled from the spec: the external docstring grammar parser
(docstring_parser.parse), which is imported and not part of this repository.
Spec section 7 states that the parser raises on truly invalid input and that
the error reaches the caller unmodified.  This minimal instance raises on one
designated malformed text and returns an empty parse for every other text. -/
def specGrammarParse (s : String) : Except Unit ParsedDoc :=
  if s = "Args:\n:::" then .error ()
  else .ok (ParsedDoc.mk none none (some []) (some []) none (some []))

/-- Record for the C9 witness: renderable (all three length-filtered fields
present) with empty optional sections. -/
def c9d : FuncDetails :=
  FuncDetails.mk "f" "f()" none none (some []) (some []) none (some [])

/-- Modelled from the spec: the grammar parser's output for a docstring that
declares no parameters section (docstring_parser.parse is imported, not part
of this repository; spec section 4.2 says the parameters field is then absent
entirely).  The docstring "Adds two numbers." has only a summary line, so the
parameters field is absent; the raises and examples sections are modelled as
present-and-empty so that only the parameters field decides the outcome. -/
def specNoParamsParse (_ : String) : Except Unit ParsedDoc :=
  .ok (ParsedDoc.mk (some "Adds two numbers.") none none (some []) none (some []))

/-- Record for the C4 witness of the amended theorem: absent parameter list. -/
def c4d : FuncDetails :=
  FuncDetails.mk "g" "g()" none none none (some []) none (some [])

/-! ## Generic lemmas about the embedding combinators -/

theorem mapE_singleton {α β : Type} {f : α → Except Unit β} {a : α} {res : List β} :
    mapE f [a] = .ok res ↔ ∃ b, f a = .ok b ∧ res = [b] := by
  constructor
  · intro h
    cases hfa : f a with
    | error e => simp [mapE, hfa] at h
    | ok b =>
      simp [mapE, hfa] at h
      exact ⟨b, rfl, h.symm⟩
  · rintro ⟨b, hb, rfl⟩
    simp [mapE, hb]

theorem mapE_mem_ok {α β : Type} {f : α → Except Unit β} :
    ∀ {l : List α} {res : List β}, mapE f l = .ok res → ∀ {a : α}, a ∈ l →
      ∃ b, f a = .ok b ∧ b ∈ res := by
  intro l
  induction l with
  | nil => intro res _ a ha; cases ha
  | cons x xs ih =>
    intro res h a ha
    cases hfx : f x with
    | error e => simp [mapE, hfx] at h
    | ok b =>
      cases hrest : mapE f xs with
      | error e => simp [mapE, hfx, hrest] at h
      | ok bs =>
        simp [mapE, hfx, hrest] at h
        subst h
        rcases List.mem_cons.mp ha with rfl | hmem
        · exact ⟨b, hfx, List.mem_cons_self _ _⟩
        · obtain ⟨c, hc1, hc2⟩ := ih hrest hmem
          exact ⟨c, hc1, List.mem_cons_of_mem _ hc2⟩

theorem mapE_error_of_mem {α β : Type} {f : α → Except Unit β} :
    ∀ {l : List α} {a : α}, a ∈ l → f a = .error () → mapE f l = .error () := by
  intro l
  induction l with
  | nil => intro a ha; cases ha
  | cons x xs ih =>
    intro a ha hf
    cases hfx : f x with
    | error e => cases e; simp [mapE, hfx]
    | ok b =>
      have hmem : a ∈ xs := by
        rcases List.mem_cons.mp ha with rfl | hmem
        · rw [hfx] at hf; exact Except.noConfusion hf
        · exact hmem
      simp [mapE, hfx, ih hmem hf]

theorem mapE_ok_of_forall_ne {α β : Type} {f : α → Except Unit β} :
    ∀ {l : List α}, (∀ a ∈ l, f a ≠ .error ()) → ∃ res, mapE f l = .ok res := by
  intro l
  induction l with
  | nil => exact fun _ => ⟨[], rfl⟩
  | cons x xs ih =>
    intro h
    obtain ⟨res, hres⟩ := ih (fun a ha => h a (List.mem_cons_of_mem _ ha))
    cases hfx : f x with
    | error e => cases e; exact absurd hfx (h x (List.mem_cons_self x xs))
    | ok b => exact ⟨b :: res, by simp [mapE, hfx, hres]⟩

theorem mapE_ok_map_eq {α β γ : Type} {f : α → Except Unit β} {g : β → γ} {g₂ : α → γ}
    (hg : ∀ a b, f a = .ok b → g b = g₂ a) :
    ∀ {l : List α} {res : List β}, mapE f l = .ok res → res.map g = l.map g₂ := by
  intro l
  induction l with
  | nil => intro res h; simp [mapE] at h; subst h; simp
  | cons x xs ih =>
    intro res h
    cases hfx : f x with
    | error e => simp [mapE, hfx] at h
    | ok b =>
      cases hrest : mapE f xs with
      | error e => simp [mapE, hfx, hrest] at h
      | ok bs =>
        simp [mapE, hfx, hrest] at h
        subst h
        simp [hg x b hfx, ih hrest]

theorem strContains_refl (pat : String) : strContains pat pat :=
  ⟨"", "", by simp [String.empty_append, String.append_empty]⟩

theorem strContains_append_left (t : String) {s pat : String}
    (h : strContains s pat) : strContains (t ++ s) pat := by
  obtain ⟨l, r, rfl⟩ := h
  exact ⟨t ++ l, r, by rw [String.append_assoc]⟩

theorem strContains_append_right (t : String) {s pat : String}
    (h : strContains s pat) : strContains (s ++ t) pat := by
  obtain ⟨l, r, rfl⟩ := h
  exact ⟨l, r ++ t, by rw [String.append_assoc, String.append_assoc]⟩

theorem strContains_trans {s t pat : String} (hst : strContains s t)
    (h : strContains t pat) : strContains s pat := by
  obtain ⟨l, r, rfl⟩ := hst
  exact strContains_append_left _ (strContains_append_right _ h)

theorem strConcat_contains_of_mem {l : List String} {s : String} (h : s ∈ l) :
    strContains (strConcat l) s := by
  induction l with
  | nil => cases h
  | cons x xs ih =>
    rcases List.mem_cons.mp h with rfl | hmem
    · exact strContains_append_right _ (strContains_refl s)
    · exact strContains_append_left _ (ih hmem)

/-- A nameless member makes the union comprehension raise. -/
theorem seqNames_error_of_mem {ms : List (Option String)}
    (h : (none : Option String) ∈ ms) : seqNames ms = .error () := by
  induction ms with
  | nil => cases h
  | cons x xs ih =>
    cases x with
    | none => simp [seqNames]
    | some n =>
      have hmem : (none : Option String) ∈ xs := by
        rcases List.mem_cons.mp h with hx | hx
        · exact absurd hx.symm (Option.some_ne_none n)
        · exact hx
      simp [seqNames, ih hmem, Except.map]

/-! ## Claims about the Signature Collector -/

/-- C1 (counterexample): the claim says an unresolvable annotation degrades to
an absent type marker and the collector never raises; but for a local callable
whose return annotation has no readable display name, `get_functions` raises
(the return branch reads the name with no try/except). -/
theorem c1_counterexample :
    get_functions
      [("f", PyObject.mk true "__main__" none "()" [] [("return", PyAnnot.atom none)])] =
      .error () := by rfl

/-- C1 (amended): a non-union parameter annotation with an undeterminable
display name degrades to an absent type marker without raising and without
excluding the function from the result; but an undeterminable display name in
the return annotation, or in a member of a union annotation (parameter or
return), raises out of the collector. -/
theorem c1_amended :
    (∀ n : Option String, paramResolved (PyAnnot.atom n) = .ok n) ∧
    (returnResolved (PyAnnot.atom none) = .error ()) ∧
    (∀ ms : List (Option String), none ∈ ms →
       paramResolved (PyAnnot.unionOf ms) = .error () ∧
       returnResolved (PyAnnot.unionOf ms) = .error ()) ∧
    (∀ (nm : String) (o : PyObject) (p : String) (res : List (String × RawRecord)),
       o.callable = true → o.module = "__main__" → p ∈ o.params →
       hintLookup o.type_hints p = some (PyAnnot.atom none) →
       get_functions [(nm, o)] = .ok res →
       ∃ r m, res = [(nm, r)] ∧ r.param_types = some m ∧
         (p, (none : Option String)) ∈ m) := by
  refine ⟨fun n => rfl, rfl, ?_, ?_⟩
  · intro ms hmem
    have hseq : seqNames ms = .error () := seqNames_error_of_mem hmem
    exact ⟨by simp [paramResolved, unionJoin, hseq, Except.map],
           by simp [returnResolved, unionJoin, hseq, Except.map]⟩
  · intro nm o p res hc hm hp hhint hok
    have hfilter :
        ([(nm, o)].filter (fun e => e.2.callable && (e.2.module == "__main__"))) =
          [(nm, o)] := by simp [hc, hm]
    rw [get_functions, hfilter] at hok
    obtain ⟨b, hb, rfl⟩ := mapE_singleton.mp hok
    cases hpt : paramTypesOf o with
    | error e => simp [hpt] at hb
    | ok types =>
      cases hrt : retTypeOf o with
      | error e => simp [hpt, hrt] at hb
      | ok ret =>
        simp only [hpt, hrt] at hb
        have hlen : o.params.length > 0 :=
          List.length_pos.mpr (List.ne_nil_of_mem hp)
        rw [paramTypesOf, if_pos hlen] at hpt
        cases hmg : mapE (fun q =>
            match hintLookup o.type_hints q with
            | some a => (paramResolved a).map (fun t => (q, t))
            | none => .ok (q, (none : Option String))) o.params with
        | error e => rw [hmg] at hpt; simp [Except.map] at hpt
        | ok m =>
          rw [hmg] at hpt
          simp only [Except.map] at hpt
          injection hpt with hpt'
          obtain ⟨bp, hbp, hbpm⟩ := mapE_mem_ok hmg hp
          rw [hhint] at hbp
          simp only [paramResolved, Except.map] at hbp
          injection hbp with hbp'
          injection hb with hb'
          subst hb'
          subst hbp'
          exact ⟨_, m, rfl, hpt'.symm, hbpm⟩

/-- C1 (witness for the amended theorem): a function with one parameter whose
annotation object has no display name; the collector keeps the function and
records an absent type for the parameter. -/
theorem c1_amended_witness :
    ((PyObject.mk true "__main__" none "(x)" ["x"] [("x", PyAnnot.atom none)]).callable = true) ∧
    ("x" ∈ (PyObject.mk true "__main__" none "(x)" ["x"] [("x", PyAnnot.atom none)]).params) ∧
    (get_functions [("f", PyObject.mk true "__main__" none "(x)" ["x"] [("x", PyAnnot.atom none)])] =
      .ok [("f", RawRecord.mk "f(x)" "" (some [("x", none)]) none)]) ∧
    (∃ r m,
      [("f", RawRecord.mk "f(x)" "" (some [("x", none)]) none)] = [("f", r)] ∧
      r.param_types = some m ∧ ("x", (none : Option String)) ∈ m) :=
  ⟨rfl, by decide, by rfl,
    c1_amended.2.2.2 "f"
      (PyObject.mk true "__main__" none "(x)" ["x"] [("x", PyAnnot.atom none)]) "x"
      [("f", RawRecord.mk "f(x)" "" (some [("x", none)]) none)]
      rfl rfl (by decide) rfl (by rfl)⟩

/-- C5: a union annotation of two named types A and B resolves, for parameters
and for the return value, to the plain string built by joining the display
names with " or ", and the collector records exactly that string. -/
theorem c5_union_flattening (A B : String) :
    (paramResolved (PyAnnot.unionOf [some A, some B]) = .ok (some (A ++ " or " ++ B))) ∧
    (returnResolved (PyAnnot.unionOf [some A, some B]) = .ok (some (A ++ " or " ++ B))) ∧
    (∀ (nm : String) (o : PyObject) (res : List (String × RawRecord)),
       o.callable = true → o.module = "__main__" →
       hintLookup o.type_hints "return" = some (PyAnnot.unionOf [some A, some B]) →
       get_functions [(nm, o)] = .ok res →
       ∃ r, res = [(nm, r)] ∧ r.ret_type = some (A ++ " or " ++ B)) := by
  have hjoin : unionJoin [some A, some B] = .ok (A ++ " or " ++ B) := by
    simp [unionJoin, seqNames, Except.map, String.intercalate, String.intercalate.go]
  refine ⟨?_, ?_, ?_⟩
  · simp [paramResolved, hjoin, Except.map]
  · simp [returnResolved, hjoin, Except.map]
  · intro nm o res hc hm hhint hok
    have hfilter :
        ([(nm, o)].filter (fun e => e.2.callable && (e.2.module == "__main__"))) =
          [(nm, o)] := by simp [hc, hm]
    rw [get_functions, hfilter] at hok
    obtain ⟨b, hb, rfl⟩ := mapE_singleton.mp hok
    cases hpt : paramTypesOf o with
    | error e => simp [hpt] at hb
    | ok types =>
      cases hrt : retTypeOf o with
      | error e => simp [hpt, hrt] at hb
      | ok ret =>
        simp only [hpt, hrt] at hb
        rw [retTypeOf, hhint] at hrt
        simp only [returnResolved, hjoin, Except.map, Except.ok.injEq] at hrt
        injection hb with hb'
        subst hb'
        exact ⟨_, rfl, hrt.symm⟩

/-- C5 (witness): a zero-parameter local function annotated to return
Union[int, str]; its recorded return type is "int or str". -/
theorem c5_witness :
    (c5obj.callable = true) ∧ (c5obj.module = "__main__") ∧
    (hintLookup c5obj.type_hints "return" =
      some (PyAnnot.unionOf [some "int", some "str"])) ∧
    (get_functions [("f", c5obj)] =
      .ok [("f", RawRecord.mk "f()" "" none (some "int or str"))]) ∧
    (∃ r, [("f", RawRecord.mk "f()" "" none (some "int or str"))] = [("f", r)] ∧
      r.ret_type = some ("int" ++ " or " ++ "str")) :=
  ⟨rfl, rfl, by rfl, by rfl,
    (c5_union_flattening "int" "str").2.2 "f" c5obj
      [("f", RawRecord.mk "f()" "" none (some "int or str"))]
      rfl rfl (by rfl) (by rfl)⟩

/-- C6: the collector keeps exactly the callable, locally defined ("__main__")
namespace entries, in order; and on a namespace with no local callables
(only imported or non-callable entries) it returns the empty dict without
error. -/
theorem c6_collector_filter :
    (∀ (gd : List (String × PyObject)) (res : List (String × RawRecord)),
       get_functions gd = .ok res →
       res.map Prod.fst =
         (gd.filter (fun e => e.2.callable && (e.2.module == "__main__"))).map Prod.fst) ∧
    (∀ gd : List (String × PyObject),
       (∀ e ∈ gd, e.2.callable = true → e.2.module ≠ "__main__") →
       get_functions gd = .ok []) := by
  constructor
  · intro gd res hok
    rw [get_functions] at hok
    refine mapE_ok_map_eq ?_ hok
    intro a b hab
    cases hpt : paramTypesOf a.2 with
    | error e => simp [hpt] at hab
    | ok types =>
      cases hrt : retTypeOf a.2 with
      | error e => simp [hpt, hrt] at hab
      | ok ret =>
        simp only [hpt, hrt] at hab
        injection hab with hab'
        rw [← hab']
  · intro gd h
    have hfilter :
        gd.filter (fun e => e.2.callable && (e.2.module == "__main__")) = [] := by
      rw [List.filter_eq_nil_iff]
      intro e he
      simp only [Bool.and_eq_true, beq_iff_eq, not_and]
      exact h e he
    rw [get_functions, hfilter]
    rfl

/-- C6 (witness): a namespace holding only an imported callable and a
non-callable yields the empty collection. -/
theorem c6_witness :
    (∀ e ∈ c6gd, e.2.callable = true → e.2.module ≠ "__main__") ∧
    (get_functions c6gd = .ok []) :=
  ⟨by decide, c6_collector_filter.2 c6gd (by decide)⟩

/-! ## Decomposition lemmas for the Normalizer -/

theorem mapE_eq_map {α β : Type} {f : α → Except Unit β} {g : α → β}
    (h : ∀ a, f a = .ok (g a)) : ∀ l : List α, mapE f l = .ok (l.map g) := by
  intro l
  induction l with
  | nil => rfl
  | cons x xs ih => simp [mapE, h x, ih]

theorem parse_docstrings_singleton {parse : String → Except Unit ParsedDoc}
    {n : String} {r : RawRecord} {parsed : ParsedDoc} {d : FuncDetails}
    (hp : parse r.docstring = .ok parsed)
    (h : parse_docstrings parse [(n, r)] = .ok [d]) :
    funcDetailsOf n r parsed = .ok d := by
  rw [parse_docstrings] at h
  obtain ⟨b, hb, hres⟩ := mapE_singleton.mp h
  injection hres with h1 _
  subst h1
  simpa only [hp] using hb

theorem funcDetailsOf_ok {n : String} {r : RawRecord} {parsed : ParsedDoc}
    {d : FuncDetails} (h : funcDetailsOf n r parsed = .ok d) :
    ∃ args raises rets exs,
      buildArgs r.param_types parsed.params = .ok args ∧
      buildRaises parsed.raises = .ok raises ∧
      buildReturns r.ret_type parsed.returns = .ok rets ∧
      buildExamples parsed.examples = .ok exs ∧
      d = FuncDetails.mk n r.head parsed.short_description
            (buildLongDesc parsed.long_description) args raises rets exs := by
  rw [funcDetailsOf] at h
  cases ha : buildArgs r.param_types parsed.params with
  | error e => rw [ha] at h; exact Except.noConfusion h
  | ok args =>
    cases hra : buildRaises parsed.raises with
    | error e => rw [ha, hra] at h; exact Except.noConfusion h
    | ok raises =>
      cases hrt : buildReturns r.ret_type parsed.returns with
      | error e => rw [ha, hra, hrt] at h; exact Except.noConfusion h
      | ok rets =>
        cases hex : buildExamples parsed.examples with
        | error e => rw [ha, hra, hrt, hex] at h; exact Except.noConfusion h
        | ok exs =>
          rw [ha, hra, hrt, hex] at h
          injection h with h'
          exact ⟨args, raises, rets, exs, rfl, rfl, rfl, rfl, h'.symm⟩

theorem buildLongDesc_map (ld : Option String) :
    buildLongDesc ld = ld.map escapeText := by
  cases ld with
  | none => rfl
  | some s =>
    by_cases hs : s = ""
    · subst hs
      simp only [buildLongDesc, if_pos rfl, Option.map_some]
      decide
    · simp [buildLongDesc, hs]

theorem buildArgs_some (m : List (String × Option String)) (ps : List DocParam) :
    buildArgs (some m) (some ps) =
      .ok (some (ps.map (fun p => ArgDetails.mk p.arg_name
        (if dictMem m p.arg_name then dictGet m p.arg_name else p.type_name)
        p.is_optional p.default p.description))) := by
  rw [buildArgs]
  rw [mapE_eq_map (g := fun p => ArgDetails.mk p.arg_name
    (if dictMem m p.arg_name then dictGet m p.arg_name else p.type_name)
    p.is_optional p.default p.description) ?_]
  · rfl
  · intro a
    rw [resolveArgType]
    by_cases hmem : dictMem m a.arg_name
    · simp [hmem, Except.map]
    · simp [hmem, Except.map]

/-! ## Claims about the Docstring Normalizer -/

/-- C2: the return entry of a normalized record prefers the declared return
type over the type named in the docstring text whenever the declared one
exists, falls back to the docstring's type name otherwise, and is entirely
absent (not an empty placeholder) when the docstring declares no Returns
section.  The resolution mirrors the parameter rule in every case that can
arise (the declared return type, unlike a parameter entry, cannot be present
and absent-valued at once). -/
theorem c2_return_resolution (parse : String → Except Unit ParsedDoc)
    (n : String) (r : RawRecord) (parsed : ParsedDoc) (d : FuncDetails)
    (hp : parse r.docstring = .ok parsed)
    (hok : parse_docstrings parse [(n, r)] = .ok [d]) :
    (parsed.returns = none → d.returns = none) ∧
    (∀ ret : DocReturns, parsed.returns = some ret →
       ∃ rd, d.returns = some rd ∧
         (∀ t, r.ret_type = some t → rd.type = some t) ∧
         (r.ret_type = none → rd.type = ret.type_name)) := by
  obtain ⟨args, raises, rets, exs, _, _, hrt, _, hd⟩ :=
    funcDetailsOf_ok (parse_docstrings_singleton hp hok)
  subst hd
  constructor
  · intro hnone
    rw [hnone] at hrt
    simp only [buildReturns] at hrt
    injection hrt with hrt'
    exact hrt'.symm
  · intro ret hsome
    rw [hsome] at hrt
    simp only [buildReturns] at hrt
    cases hdsc : ret.description with
    | none => rw [hdsc] at hrt; exact Except.noConfusion hrt
    | some dsc =>
      rw [hdsc] at hrt
      injection hrt with hrt'
      refine ⟨_, hrt'.symm, ?_, ?_⟩
      · intro t ht; simp [ht]
      · intro ht; simp [ht]

/-- C2 (witness): with a declared return type "int" and a docstring-text type
"str", the normalized return type is "int". -/
theorem c2_witness :
    ((fun _ => .ok c2parsed : String → Except Unit ParsedDoc) c2raw.docstring = .ok c2parsed) ∧
    (parse_docstrings (fun _ => .ok c2parsed) [("f", c2raw)] =
      .ok [FuncDetails.mk "f" "f()" (some "s") none none (some [])
            (some (ReturnDetails.mk none (some "int") "d")) (some [])]) ∧
    (∃ rd, (FuncDetails.mk "f" "f()" (some "s") none none (some [])
            (some (ReturnDetails.mk none (some "int") "d")) (some [])).returns = some rd ∧
       (∀ t, c2raw.ret_type = some t → rd.type = some t) ∧
       (c2raw.ret_type = none → rd.type = (DocReturns.mk none (some "str") (some "d")).type_name)) :=
  ⟨rfl, by rfl,
    ((c2_return_resolution (fun _ => .ok c2parsed) "f" c2raw c2parsed
        (FuncDetails.mk "f" "f()" (some "s") none none (some [])
          (some (ReturnDetails.mk none (some "int") "d")) (some []))
        rfl (by rfl)).2 (DocReturns.mk none (some "str") (some "d")) rfl)⟩

/-- C7: each parsed parameter entry resolves its type by name lookup in the
record's declared parameter-type mapping; a name present in the mapping uses
the mapped resolution even when that resolution is the absent marker (the
mapped value `none`), and only a name missing from the mapping falls back to
the type name written in the docstring text. -/
theorem c7_param_resolution (parse : String → Except Unit ParsedDoc)
    (n : String) (r : RawRecord) (parsed : ParsedDoc)
    (m : List (String × Option String)) (ps : List DocParam) (d : FuncDetails)
    (hp : parse r.docstring = .ok parsed)
    (hm : r.param_types = some m) (hps : parsed.params = some ps)
    (hok : parse_docstrings parse [(n, r)] = .ok [d]) :
    d.args = some (ps.map (fun p => ArgDetails.mk p.arg_name
      (if dictMem m p.arg_name then dictGet m p.arg_name else p.type_name)
      p.is_optional p.default p.description)) := by
  obtain ⟨args, raises, rets, exs, ha, _, _, _, hd⟩ :=
    funcDetailsOf_ok (parse_docstrings_singleton hp hok)
  subst hd
  rw [hm, hps, buildArgs_some] at ha
  injection ha with ha'
  exact ha'.symm

/-- C7 (witness): "x" is in the mapping with the absent marker, so its
normalized type is absent despite the docstring saying "int"; "y" is not in
the mapping, so its docstring type "str" is kept. -/
theorem c7_witness :
    ((fun _ => .ok c7parsed : String → Except Unit ParsedDoc) c7raw.docstring = .ok c7parsed) ∧
    (c7raw.param_types = some [("x", none)]) ∧
    (c7parsed.params = some c7psList) ∧
    (parse_docstrings (fun _ => .ok c7parsed) [("f", c7raw)] = .ok [c7expected]) ∧
    (c7expected.args = some (c7psList.map (fun p => ArgDetails.mk p.arg_name
      (if dictMem [("x", none)] p.arg_name then dictGet [("x", none)] p.arg_name
       else p.type_name)
      p.is_optional p.default p.description))) :=
  ⟨rfl, rfl, rfl, by rfl,
    c7_param_resolution (fun _ => .ok c7parsed) "f" c7raw c7parsed
      [("x", none)] c7psList c7expected rfl rfl rfl (by rfl)⟩

/-- C8: the summary passes through the normalizer unchanged, and the long
description is rewritten by exactly the newline-to-line-break and
tab-to-four-non-breaking-spaces substitution (and is otherwise unchanged). -/
theorem c8_description_escaping (parse : String → Except Unit ParsedDoc)
    (n : String) (r : RawRecord) (parsed : ParsedDoc) (d : FuncDetails)
    (hp : parse r.docstring = .ok parsed)
    (hok : parse_docstrings parse [(n, r)] = .ok [d]) :
    d.short_description = parsed.short_description ∧
    d.long_description = Option.map escapeText parsed.long_description := by
  obtain ⟨args, raises, rets, exs, _, _, _, _, hd⟩ :=
    funcDetailsOf_ok (parse_docstrings_singleton hp hok)
  subst hd
  exact ⟨rfl, buildLongDesc_map parsed.long_description⟩

/-- C8 (witness): the summary keeps its literal newline; the long description
has the newline turned into a line break and the tab into four non-breaking
spaces. -/
theorem c8_witness :
    ((fun _ => .ok c8parsed : String → Except Unit ParsedDoc) "" = .ok c8parsed) ∧
    (parse_docstrings (fun _ => .ok c8parsed) [("f", RawRecord.mk "f()" "" none none)] =
      .ok [FuncDetails.mk "f" "f()" (some "sum\nmary")
            (some "line1<br>line2&nbsp;&nbsp;&nbsp;&nbsp;end") none (some []) none (some [])]) ∧
    ((FuncDetails.mk "f" "f()" (some "sum\nmary")
        (some "line1<br>line2&nbsp;&nbsp;&nbsp;&nbsp;end") none (some []) none
        (some [])).short_description = c8parsed.short_description) ∧
    ((FuncDetails.mk "f" "f()" (some "sum\nmary")
        (some "line1<br>line2&nbsp;&nbsp;&nbsp;&nbsp;end") none (some []) none
        (some [])).long_description = Option.map escapeText c8parsed.long_description) :=
  ⟨rfl, by rfl,
    (c8_description_escaping (fun _ => .ok c8parsed) "f" (RawRecord.mk "f()" "" none none)
      c8parsed _ rfl (by rfl)).1,
    (c8_description_escaping (fun _ => .ok c8parsed) "f" (RawRecord.mk "f()" "" none none)
      c8parsed _ rfl (by rfl)).2⟩

/-- C10: a record collected from a function with zero signature parameters has
the absent parameter-type mapping, and normalizing it against a docstring that
documents at least one parameter raises (the Python membership test against
None), instead of producing a normalized record. -/
theorem c10_zero_param_mismatch (parse : String → Except Unit ParsedDoc)
    (n : String) (r : RawRecord) (parsed : ParsedDoc) (p : DocParam)
    (ps : List DocParam)
    (hp : parse r.docstring = .ok parsed)
    (hm : r.param_types = none)
    (hps : parsed.params = some (p :: ps)) :
    parse_docstrings parse [(n, r)] = .error () := by
  rw [parse_docstrings]
  refine mapE_error_of_mem (List.mem_singleton.mpr rfl) ?_
  simp only [hp]
  rw [funcDetailsOf, hm, hps]
  simp [buildArgs, mapE, resolveArgType, Except.map]

/-- C10 (witness): a zero-parameter function whose docstring documents a
parameter "a" makes the normalizer raise. -/
theorem c10_witness :
    ((fun _ => .ok c10parsed : String → Except Unit ParsedDoc) "" = .ok c10parsed) ∧
    ((RawRecord.mk "f()" "" none none).param_types = none) ∧
    (c10parsed.params = some [DocParam.mk "a" (some "int") (some false) none (some "first")]) ∧
    (parse_docstrings (fun _ => .ok c10parsed) [("f", RawRecord.mk "f()" "" none none)] =
      .error ()) :=
  ⟨rfl, rfl, rfl,
    c10_zero_param_mismatch (fun _ => .ok c10parsed) "f" (RawRecord.mk "f()" "" none none)
      c10parsed (DocParam.mk "a" (some "int") (some false) none (some "first")) []
      rfl rfl rfl⟩

/-- C3 (counterexample): with the grammar parser raising on a malformed
docstring, the normalizer propagates the error instead of degrading to a
record with only the short description set. -/
theorem c3_counterexample :
    parse_docstrings specGrammarParse
      [("f", RawRecord.mk "f()" "Args:\n:::" none none)] = .error () := by rfl

/-- C3 (amended): the normalizer wraps no error handling around the parse
call; whenever the grammar parser raises on any record's docstring, the
exception propagates past parse_docstrings unmodified, and no partial record
is produced. -/
theorem c3_amended (parse : String → Except Unit ParsedDoc)
    (docs : List (String × RawRecord)) (e : String × RawRecord)
    (he : e ∈ docs) (hp : parse e.2.docstring = .error ()) :
    parse_docstrings parse docs = .error () := by
  rw [parse_docstrings]
  exact mapE_error_of_mem he (by simp [hp])

/-- C3 (witness for the amended theorem). -/
theorem c3_amended_witness :
    ((("f", RawRecord.mk "f()" "Args:\n:::" none none)) ∈
      [(("f", RawRecord.mk "f()" "Args:\n:::" none none))]) ∧
    (specGrammarParse (RawRecord.mk "f()" "Args:\n:::" none none).docstring = .error ()) ∧
    (parse_docstrings specGrammarParse
      [("f", RawRecord.mk "f()" "Args:\n:::" none none)] = .error ()) :=
  ⟨List.mem_singleton.mpr rfl, by rfl,
    c3_amended specGrammarParse
      [("f", RawRecord.mk "f()" "Args:\n:::" none none)]
      ("f", RawRecord.mk "f()" "Args:\n:::" none none)
      (List.mem_singleton.mpr rfl) (by rfl)⟩

/-! ## Decomposition lemmas for the Renderer -/

theorem ne_error_of_isOk {α : Type} {x : Except Unit α} (h : x.isOk = true) :
    x ≠ .error () := by
  cases x with
  | ok a => intro hc; exact Except.noConfusion hc
  | error e => simp [Except.isOk, Except.toBool] at h

theorem bodyBlock_ok {d : FuncDetails} {b : String} (h : bodyBlock d = .ok b) :
    ∃ argsHtml raisesHtml exHtml,
      argsSection d.args = .ok argsHtml ∧
      raisesSection d.raises = .ok raisesHtml ∧
      examplesSection d.examples = .ok exHtml ∧
      b = "<div id=\"" ++ d.name ++ "\">" ++ "\n" ++
          "<p class=\"h3\"> " ++ d.name ++ " </p>\n" ++
          "<div class=\"card\">\n" ++
          "<div class=\"card-header\"><i><b>" ++ d.head ++ "</b></i></div>\n" ++
          "<div class=\"container\">\n" ++
          shortDescHtml d.short_description ++
          longDescHtml d.long_description ++
          "<b>Args:</b>\n" ++ argsHtml ++
          "<b>Returns:</b>\n" ++ returnsSection d.returns ++
          raisesHtml ++ exHtml ++
          "</div>\n</div>\n</div>\n<br>\n" := by
  rw [bodyBlock] at h
  cases ha : argsSection d.args with
  | error e => rw [ha] at h; exact Except.noConfusion h
  | ok argsHtml =>
    cases hra : raisesSection d.raises with
    | error e => rw [ha, hra] at h; exact Except.noConfusion h
    | ok raisesHtml =>
      cases hex : examplesSection d.examples with
      | error e => rw [ha, hra, hex] at h; exact Except.noConfusion h
      | ok exHtml =>
        rw [ha, hra, hex] at h
        injection h with h'
        exact ⟨argsHtml, raisesHtml, exHtml, rfl, rfl, rfl, h'.symm⟩

theorem generate_html_ok_eq {ds : List FuncDetails} {t : String} {links : Bool}
    {res : List String} (hres : mapE bodyBlock ds = .ok res) :
    generate_html ds t links =
      .ok (htmlHead t ++ sidebarHtml links ds ++ bodyIntro ++ strConcat res ++ htmlFoot) := by
  rw [generate_html, hres]

/-! ## Claims about the Document Renderer -/

set_option maxHeartbeats 1600000 in
/-- C9: a rendered document lists, for each documented function, its side
panel entry in the form selected by the link flag and contains the anchor div
named after the function in the main panel (present for both flag values);
with the flag disabled the side panel entry is the plain list item carrying no
hyperlink markup. -/
theorem c9_sidebar_and_anchors (ds : List FuncDetails) (t : String) (flag : Bool)
    (h : ∀ e ∈ ds, bodyBlock e ≠ .error ()) :
    ∃ html, generate_html ds t flag = .ok html ∧
      ∀ d ∈ ds,
        strContains html (sidebarEntry flag d.name) ∧
        strContains html ("<div id=\"" ++ d.name ++ "\">") ∧
        sidebarEntry false d.name =
          "<li class=\"list-group-item\">" ++ d.name ++ "</li>\n" := by
  obtain ⟨res, hres⟩ := mapE_ok_of_forall_ne h
  refine ⟨_, generate_html_ok_eq hres, ?_⟩
  intro d hd
  refine ⟨?_, ?_, rfl⟩
  · apply strContains_append_right
    apply strContains_append_right
    apply strContains_append_right
    apply strContains_append_left
    rw [sidebarHtml]
    apply strContains_append_right
    apply strContains_append_left
    exact strConcat_contains_of_mem
      (List.mem_map_of_mem (fun e => sidebarEntry flag e.name) hd)
  · apply strContains_append_right
    apply strContains_append_left
    obtain ⟨b, hb, hbmem⟩ := mapE_mem_ok hres hd
    refine strContains_trans (strConcat_contains_of_mem hbmem) ?_
    obtain ⟨argsHtml, raisesHtml, exHtml, _, _, _, hbeq⟩ := bodyBlock_ok hb
    rw [hbeq]
    apply strContains_append_right
    apply strContains_append_right
    apply strContains_append_right
    apply strContains_append_right
    apply strContains_append_right
    apply strContains_append_right
    apply strContains_append_right
    apply strContains_append_right
    apply strContains_append_right
    apply strContains_append_right
    apply strContains_append_right
    apply strContains_append_right
    apply strContains_append_right
    apply strContains_append_right
    apply strContains_append_right
    apply strContains_append_right
    apply strContains_append_right
    apply strContains_append_right
    exact strContains_refl _

/-- C9 (witness): rendering one record with links disabled. -/
theorem c9_witness :
    (∀ e ∈ [c9d], bodyBlock e ≠ .error ()) ∧
    (∃ html, generate_html [c9d] "T" false = .ok html ∧
      ∀ d ∈ [c9d],
        strContains html (sidebarEntry false d.name) ∧
        strContains html ("<div id=\"" ++ d.name ++ "\">") ∧
        sidebarEntry false d.name =
          "<li class=\"list-group-item\">" ++ d.name ++ "</li>\n") :=
  ⟨fun e he => by
      have h' := List.mem_singleton.mp he
      subst h'
      exact ne_error_of_isOk (by rfl),
    c9_sidebar_and_anchors [c9d] "T" false
      (fun e he => by
        have h' := List.mem_singleton.mp he
        subst h'
        exact ne_error_of_isOk (by rfl))⟩

/-- C4 (counterexample): a zero-parameter function (absent parameter-type
mapping) with a docstring declaring no parameters section normalizes to a
record whose parameter list is absent — the first half of the claim — but the
renderer then fails on that record (the length filter is applied to the absent
list), so the rendered document does not show the None placeholder; the claim
conjunction is false. -/
theorem c4_counterexample :
    (parse_docstrings specNoParamsParse
      [("f", RawRecord.mk "f()" "Adds two numbers." none none)] =
      .ok [FuncDetails.mk "f" "f()" (some "Adds two numbers.") none none
            (some []) none (some [])]) ∧
    ((FuncDetails.mk "f" "f()" (some "Adds two numbers.") none none
        (some []) none (some [])).args = none) ∧
    (generate_html
      [FuncDetails.mk "f" "f()" (some "Adds two numbers.") none none
        (some []) none (some [])]
      "Notebook" false = .error ()) :=
  ⟨by rfl, rfl, by rfl⟩

set_option maxHeartbeats 1600000 in
/-- C4 (amended): when the parsed docstring has no parameters section the
normalized record's parameter list is indeed absent; but the renderer cannot
render a record with an absent parameter list — it raises on the arguments
section — and the None placeholder for arguments is rendered exactly when the
parameter list is present and empty. -/
theorem c4_amended :
    (∀ (parse : String → Except Unit ParsedDoc) (n : String) (r : RawRecord)
       (parsed : ParsedDoc) (d : FuncDetails),
       parse r.docstring = .ok parsed → parsed.params = none →
       parse_docstrings parse [(n, r)] = .ok [d] → d.args = none) ∧
    (∀ (ds : List FuncDetails) (t : String) (links : Bool) (d : FuncDetails),
       d ∈ ds → d.args = none → generate_html ds t links = .error ()) ∧
    (∀ (ds : List FuncDetails) (t : String) (links : Bool) (d : FuncDetails),
       (∀ e ∈ ds, bodyBlock e ≠ .error ()) → d ∈ ds → d.args = some [] →
       ∃ html, generate_html ds t links = .ok html ∧
         strContains html "<li class=\"list-group-item\"><i>None</i></li>") := by
  refine ⟨?_, ?_, ?_⟩
  · intro parse n r parsed d hp hps hok
    obtain ⟨args, raises, rets, exs, ha, _, _, _, hd⟩ :=
      funcDetailsOf_ok (parse_docstrings_singleton hp hok)
    subst hd
    rw [hps] at ha
    simp only [buildArgs] at ha
    injection ha with ha'
    exact ha'.symm
  · intro ds t links d hd hargs
    have hsec : argsSection d.args = .error () := by rw [hargs]; rfl
    have hbb : bodyBlock d = .error () := by rw [bodyBlock, hsec]
    have hmap : mapE bodyBlock ds = .error () := mapE_error_of_mem hd hbb
    rw [generate_html, hmap]
  · intro ds t links d h hd hargs
    obtain ⟨res, hres⟩ := mapE_ok_of_forall_ne h
    refine ⟨_, generate_html_ok_eq hres, ?_⟩
    obtain ⟨b, hb, hbmem⟩ := mapE_mem_ok hres hd
    obtain ⟨argsHtml, raisesHtml, exHtml, hsec, _, _, hbeq⟩ := bodyBlock_ok hb
    rw [hargs] at hsec
    rw [show argsSection (some ([] : List ArgDetails)) =
          .ok ("<ul class=\"list-group list-group-flush\">\n" ++
               "<li class=\"list-group-item\"><i>None</i></li>\n</ul>\n") from rfl] at hsec
    injection hsec with hsec'
    subst hsec'
    apply strContains_append_right
    apply strContains_append_left
    refine strContains_trans (strConcat_contains_of_mem hbmem) ?_
    rw [hbeq]
    apply strContains_append_right
    apply strContains_append_right
    apply strContains_append_right
    apply strContains_append_right
    apply strContains_append_right
    apply strContains_append_left
    exact ⟨"<ul class=\"list-group list-group-flush\">\n", "\n</ul>\n", by decide⟩

/-- C4 (witness for the amended theorem): rendering a record whose parameter
list is absent raises. -/
theorem c4_amended_witness :
    (c4d ∈ [c4d]) ∧ (c4d.args = none) ∧
    (generate_html [c4d] "T" false = .error ()) :=
  ⟨List.mem_singleton.mpr rfl, rfl,
    c4_amended.2.1 [c4d] "T" false c4d (List.mem_singleton.mpr rfl) rfl⟩
